import Mathlib

/-!
Shallow embedding of the controleConta server (fabiorvs/controleConta).

The repository contains three successive rewrites of the same Express/SQLite
personal-finance server:

* `src/unnamed/part_000` — multi-user variant (sql.js): users have
  username/email, access tokens signed with `expiresIn: "1h"`, refresh tokens
  persisted in a `refresh_tokens` table, timed backups with a retention of 10.
* `src/server.js` — single-user variant (sql.js): no username/email, no
  password-length validation, tokens signed with no `expiresIn`.
* `src/unnamed/part_001` — single-user variant (better-sqlite3): password
  minimum length 4, tokens signed with no `expiresIn`.

Library calls are embedded by their documented semantics:

* `jsonwebtoken`: a signed token is modelled as a record carrying its payload,
  the identity of the signing secret, and the optional embedded expiry (`exp`,
  seconds). `jwt.verify(t, s)` succeeds iff the secrets coincide and, when an
  `exp` claim is present, the current time is strictly below it.
* `bcryptjs`: `hash` is modelled as an injective tagging function and
  `compare p h` as `hash p = h`; only match/mismatch is relevant to any claim.
* SQL parameter binding (sql.js `Statement.bindValue` and better-sqlite3):
  `null` binds as SQL NULL, numbers and strings bind as themselves, and
  binding the JavaScript value `undefined` throws (sql.js:
  "Wrong API use : tried to bind a value of an unknown type"; better-sqlite3
  raises a TypeError), which each route handler catches as an HTTP 400.

Times are in seconds since the epoch, amounts are integers (no claim does
arithmetic on them), and `String.length` stands in for JavaScript's
UTF-16 length, which agrees on the ASCII inputs used in witnesses.
-/

namespace ControleConta

/-! ### JavaScript values and SQL binding -/

/-- The JSON-derived JavaScript values that reach the handlers' request
bodies: a missing field (`undefined`), `null`, a number, or a string. -/
inductive JsVal where
  | undef : JsVal
  | null : JsVal
  | num : Int → JsVal
  | str : String → JsVal
deriving Repr, DecidableEq

/-- JavaScript truthiness for the values of `JsVal`: `undefined`, `null`,
`0` and `""` are falsy, everything else is truthy. -/
def jsTruthy : JsVal → Bool
  | .undef => false
  | .null => false
  | .num n => n != 0
  | .str s => s != ""

/-- The JavaScript `a || b` default idiom (`initialBalance || 0`,
`comment || null`). -/
def jsOr (v d : JsVal) : JsVal := if jsTruthy v then v else d

/-- A value stored in an SQLite column: NULL, a number, or a text. -/
inductive SqlVal where
  | null : SqlVal
  | real : Int → SqlVal
  | text : String → SqlVal
deriving Repr, DecidableEq

/-- SQL parameter binding. `null` binds as SQL NULL, numbers and strings
bind as themselves; binding `undefined` throws in both sql.js
(`bindValue`'s unknown-type branch) and better-sqlite3, modelled as
`none`. -/
def bindParam : JsVal → Option SqlVal
  | .undef => none
  | .null => some .null
  | .num n => some (.real n)
  | .str s => some (.text s)

/-! ### jsonwebtoken -/

/-- The payload signed into every token issued by the server:
`{ userId }` in the single-user variants, `{ userId, username }` in the
multi-user variant. -/
structure JwtClaims where
  userId : Nat
  username : Option String
deriving Repr, DecidableEq

/-- A signed token: its payload, the identity of the secret it was signed
with, and the embedded `exp` claim (absolute seconds) when the signing call
passed `expiresIn`. -/
structure Jwt where
  claims : JwtClaims
  secret : String
  exp : Option Nat
deriving Repr, DecidableEq

/-- Model of `jwt.sign(claims, secret, { expiresIn })`: the token embeds
`exp = now + expiresIn` when an `expiresIn` option is given, and no `exp`
claim otherwise. -/
def jwtSign (c : JwtClaims) (secret : String) (expiresIn : Option Nat)
    (now : Nat) : Jwt :=
  { claims := c, secret := secret, exp := expiresIn.map (now + ·) }

/-- Model of `jwt.verify(token, secret)`: succeeds with the decoded payload iff the
token was signed with the same secret and, when an `exp` claim is embedded,
the clock is strictly below it (jsonwebtoken rejects once
`clockTimestamp >= exp`). -/
def jwtVerify (t : Jwt) (secret : String) (now : Nat) : Option JwtClaims :=
  if t.secret = secret then
    match t.exp with
    | none => some t.claims
    | some e => if now < e then some t.claims else none
  else none

/-! ### bcryptjs -/

/-- Model of `bcrypt.hash`, abstracted to an injective tagging function: the only
facts the claims use are that hashing is deterministic and that `compare`
distinguishes the hashed password from any other. -/
def bcryptHash (p : String) : String := "$2b$12$" ++ p

/-- Model of `bcrypt.compare p h`: true iff `h` is the hash of `p`. -/
def bcryptCompare (p h : String) : Bool := bcryptHash p = h

/-! ### Table rows -/

/-- A row of the `users` table. `username`/`email` exist only in the
multi-user schema (`none` in the single-user variants); `initial_balance`
is nullable (`REAL DEFAULT 0`, no NOT NULL). -/
structure UserRow where
  id : Nat
  username : Option String
  email : Option String
  password : String
  initial_balance : SqlVal
  created_at : Nat
  last_login : Option Nat
deriving Repr, DecidableEq

/-- A row of the `transactions` table. `category` exists only in the
multi-user schema. -/
structure TransactionRow where
  id : Nat
  user_id : Nat
  type : String
  amount : SqlVal
  comment : Option String
  category : Option String
  date : Nat
deriving Repr, DecidableEq

/-- A row of the `refresh_tokens` table (multi-user variant only). -/
structure RefreshRow where
  id : Nat
  user_id : Nat
  token : Jwt
  expires_at : Nat
  created_at : Nat
deriving Repr, DecidableEq

/-! ### Authentication middleware

All three variants share the same `auth` middleware: read the
`Authorization` header, strip the `Bearer ` prefix, `jwt.verify` against the
access secret, set `req.userId` (and `req.username` in the multi-user
variant) and call `next()`; any failure — missing token, wrong secret,
expired token — is caught and answered with HTTP 401 before the route
handler runs. -/

/-- The decoding step of the middleware: `none` when the header is absent or
verification fails. -/
def authDecode (header : Option Jwt) (secret : String) (now : Nat) :
    Option JwtClaims :=
  match header with
  | none => none
  | some t => jwtVerify t secret now

/-- The middleware wrapping a protected handler: on failure the response is
HTTP 401 and the handler is never invoked (the state `st` is returned
untouched inside `Except.error`); on success the handler runs with the
decoded claims attached. -/
def withAuth {σ ρ : Type} (secret : String) (now : Nat) (header : Option Jwt)
    (handler : JwtClaims → σ → ρ × σ) (st : σ) : Except Nat (ρ × σ) :=
  match authDecode header secret now with
  | none => .error 401
  | some c => .ok (handler c st)

/-! ### Registration

Three handlers. `register_mu` is `POST /api/register` of the multi-user
variant (`src/unnamed/part_000`), `register_sjs` the one of the single-user
sql.js variant (`src/server.js`), `register_bsq` the one of the single-user
better-sqlite3 variant (`src/unnamed/part_001`). Credential body fields are
taken as `Option String` (a string when supplied, `none` when absent);
`jsTruthy`-falsiness of a supplied string is just `= ""`. -/

/-- Outcome of a registration request, tagged with its HTTP status via
`RegisterResult.status`. -/
inductive RegisterResult where
  | badRequest : String → RegisterResult
  | created : Jwt → Option Jwt → Nat → Option String → RegisterResult
deriving Repr, DecidableEq

/-- HTTP status of a registration outcome. -/
def RegisterResult.status : RegisterResult → Nat
  | .badRequest _ => 400
  | .created _ _ _ _ => 201

/-- The expression `initialBalance || 0`, bound as an SQL parameter. The `jsOr` default
makes the value truthy, hence bindable, so the `.getD` default is never
taken. -/
def boundBalance (initialBalance : JsVal) : SqlVal :=
  (bindParam (jsOr initialBalance (.num 0))).getD (.real 0)

/-- Handler `POST /api/register`, multi-user variant: requires all of
username/email/password, enforces a minimum password length of 6, rejects a
duplicate username or email, inserts the user, signs a 1-hour access token
and a 7-day refresh token, and persists the refresh token. -/
def register_mu (users : List UserRow) (rts : List RefreshRow)
    (username email password : Option String) (initialBalance : JsVal)
    (accessSecret refreshSecret : String) (now nextUserId nextRtId : Nat) :
    RegisterResult × List UserRow × List RefreshRow :=
  match username, email, password with
  | some un, some em, some pw =>
    if un = "" || em = "" || pw = "" then
      (.badRequest "Preencha todos os campos obrigatórios", users, rts)
    else if pw.length < 6 then
      (.badRequest "Senha deve ter pelo menos 6 caracteres", users, rts)
    else if users.any (fun u => u.username = some un || u.email = some em) then
      (.badRequest "Usuário ou email já cadastrado", users, rts)
    else
      let row : UserRow :=
        { id := nextUserId, username := some un, email := some em,
          password := bcryptHash pw, initial_balance := boundBalance initialBalance,
          created_at := now, last_login := none }
      let token := jwtSign ⟨nextUserId, some un⟩ accessSecret (some 3600) now
      let refreshToken := jwtSign ⟨nextUserId, some un⟩ refreshSecret (some 604800) now
      let rtRow : RefreshRow :=
        { id := nextRtId, user_id := nextUserId, token := refreshToken,
          expires_at := now + 604800, created_at := now }
      (.created token (some refreshToken) nextUserId (some un),
       users ++ [row], rts ++ [rtRow])
  | _, _, _ => (.badRequest "Preencha todos os campos obrigatórios", users, rts)

/-- Handler `POST /api/register`, single-user sql.js variant: no validation at all;
a missing password makes `bcrypt.hash` throw, caught as 400; otherwise the
user row is inserted and a token with no expiry is signed. -/
def register_sjs (users : List UserRow) (password : Option String)
    (initialBalance : JsVal) (secret : String) (now nextUserId : Nat) :
    RegisterResult × List UserRow :=
  match password with
  | none => (.badRequest "Erro ao criar conta", users)
  | some pw =>
    let row : UserRow :=
      { id := nextUserId, username := none, email := none,
        password := bcryptHash pw, initial_balance := boundBalance initialBalance,
        created_at := now, last_login := none }
    (.created (jwtSign ⟨nextUserId, none⟩ secret none now) none nextUserId none,
     users ++ [row])

/-- Handler `POST /api/register`, single-user better-sqlite3 variant: rejects a
missing or shorter-than-4 password, otherwise inserts the user row and
signs a token with no expiry. -/
def register_bsq (users : List UserRow) (password : Option String)
    (initialBalance : JsVal) (secret : String) (now nextUserId : Nat) :
    RegisterResult × List UserRow :=
  match password with
  | none => (.badRequest "Senha deve ter pelo menos 4 caracteres", users)
  | some pw =>
    if pw = "" || pw.length < 4 then
      (.badRequest "Senha deve ter pelo menos 4 caracteres", users)
    else
      let row : UserRow :=
        { id := nextUserId, username := none, email := none,
          password := bcryptHash pw, initial_balance := boundBalance initialBalance,
          created_at := now, last_login := none }
      (.created (jwtSign ⟨nextUserId, none⟩ secret none now) none nextUserId none,
       users ++ [row])

/-! ### Login -/

/-- Outcome of a login request, tagged with its HTTP status via
`LoginResult.status`. -/
inductive LoginResult where
  | badRequest : String → LoginResult
  | notFound : String → LoginResult
  | unauthorized : String → LoginResult
  | success : Jwt → Option Jwt → Nat → Option String → LoginResult
deriving Repr, DecidableEq

/-- HTTP status of a login outcome. -/
def LoginResult.status : LoginResult → Nat
  | .badRequest _ => 400
  | .notFound _ => 404
  | .unauthorized _ => 401
  | .success _ _ _ _ => 200

/-- Handler `POST /api/login`, multi-user variant: looks the user up by
username-or-email; an empty result and a bcrypt mismatch both answer 401
with the same message; on success it stamps `last_login`, signs fresh
access/refresh tokens and persists the refresh token. -/
def login_mu (users : List UserRow) (rts : List RefreshRow)
    (username password : Option String)
    (accessSecret refreshSecret : String) (now nextRtId : Nat) :
    LoginResult × List UserRow × List RefreshRow :=
  match username, password with
  | some un, some pw =>
    if un = "" || pw = "" then (.badRequest "Preencha usuário e senha", users, rts)
    else
      match users.find? (fun u => u.username = some un || u.email = some un) with
      | none => (.unauthorized "Usuário ou senha incorretos", users, rts)
      | some u =>
        if bcryptCompare pw u.password then
          let users' := users.map fun v =>
            if v.id = u.id then { v with last_login := some now } else v
          let token := jwtSign ⟨u.id, u.username⟩ accessSecret (some 3600) now
          let refreshToken := jwtSign ⟨u.id, u.username⟩ refreshSecret (some 604800) now
          let rtRow : RefreshRow :=
            { id := nextRtId, user_id := u.id, token := refreshToken,
              expires_at := now + 604800, created_at := now }
          (.success token (some refreshToken) u.id u.username, users', rts ++ [rtRow])
        else (.unauthorized "Usuário ou senha incorretos", users, rts)
  | _, _ => (.badRequest "Preencha usuário e senha", users, rts)

/-- Handler `POST /api/login`, single-user variants (`src/server.js` and
`src/unnamed/part_001`, identical logic): fetches the sole row via
`SELECT * FROM users LIMIT 1`; an empty table answers 404, a bcrypt
mismatch 401; an absent password reaches `bcrypt.compare`, which throws on
`undefined`, caught as 400. -/
def login_su (users : List UserRow) (password : Option String)
    (secret : String) (now : Nat) : LoginResult × List UserRow :=
  match users.head? with
  | none => (.notFound "Nenhuma conta encontrada", users)
  | some u =>
    match password with
    | none => (.badRequest "Erro no login", users)
    | some pw =>
      if bcryptCompare pw u.password then
        (.success (jwtSign ⟨u.id, none⟩ secret none now) none u.id none, users)
      else (.unauthorized "Senha incorreta", users)

/-! ### Token refresh (multi-user variant only) -/

/-- Outcome of `POST /api/refresh`, tagged with its HTTP status via
`RefreshResult.status`. -/
inductive RefreshResult where
  | badRequest : String → RefreshResult
  | unauthorized : String → RefreshResult
  | ok : Jwt → RefreshResult
deriving Repr, DecidableEq

/-- HTTP status of a refresh outcome. -/
def RefreshResult.status : RefreshResult → Nat
  | .badRequest _ => 400
  | .unauthorized _ => 401
  | .ok _ => 200

/-- Handler `POST /api/refresh`: exact-match lookup of the refresh token in the
`refresh_tokens` table, then the stored `expires_at` column is compared to
the clock (`new Date(expiresAt) < new Date()`), then the token's own
signature is verified; only then is a fresh 1-hour access token signed.
The handler performs no write, so the table is returned untouched. -/
def refresh (rts : List RefreshRow) (refreshToken : Option Jwt)
    (accessSecret refreshSecret : String) (now : Nat) :
    RefreshResult × List RefreshRow :=
  match refreshToken with
  | none => (.badRequest "Refresh token não fornecido", rts)
  | some rt =>
    match rts.find? (fun r => r.token = rt) with
    | none => (.unauthorized "Refresh token inválido", rts)
    | some row =>
      if row.expires_at < now then (.unauthorized "Refresh token expirado", rts)
      else
        match jwtVerify rt refreshSecret now with
        | none => (.unauthorized "Refresh token inválido", rts)
        | some c =>
          (.ok (jwtSign ⟨c.userId, c.username⟩ accessSecret (some 3600) now), rts)

/-! ### Transactions -/

/-- Handler `GET /api/transactions` (multi-user and better-sqlite3 variants):
`SELECT * FROM transactions WHERE user_id = ? ORDER BY date DESC`. An empty
result set is answered as the empty JSON array, not an error. -/
def listTransactions (txs : List TransactionRow) (userId : Nat) :
    List TransactionRow :=
  (txs.filter (fun t => t.user_id = userId)).mergeSort
    (fun a b => decide (b.date ≤ a.date))

/-- Outcome of `POST /api/transactions`, tagged with its HTTP status via
`CreateTxResult.status`. The 201 body echoes the request's raw `type`,
`amount` and `comment`/`category` alongside the server-assigned id and
timestamp. -/
inductive CreateTxResult where
  | badRequest : String → CreateTxResult
  | created : Nat → JsVal → JsVal → Option String → Option String → Nat →
      CreateTxResult
deriving Repr, DecidableEq

/-- HTTP status of a transaction-creation outcome. -/
def CreateTxResult.status : CreateTxResult → Nat
  | .badRequest _ => 400
  | .created _ _ _ _ _ _ => 201

/-- Handler `POST /api/transactions` (multi-user and better-sqlite3 variants, which
share the guard `!type || !amount || !["income","expense"].includes(type)`;
the better-sqlite3 variant has no `category` field, so callers pass `none`).
A validated `amount` is truthy, hence bindable, so the `.getD` default is
never taken. -/
def createTransaction (txs : List TransactionRow) (userId : Nat)
    (type amount : JsVal) (comment category : Option String)
    (nextId now : Nat) : CreateTxResult × List TransactionRow :=
  match type with
  | .str ty =>
    if ty = "" || !jsTruthy amount || !(ty = "income" || ty = "expense") then
      (.badRequest "Dados inválidos", txs)
    else
      let row : TransactionRow :=
        { id := nextId, user_id := userId, type := ty,
          amount := (bindParam amount).getD .null,
          comment := comment, category := category, date := now }
      (.created nextId (JsVal.str ty) amount comment category now, txs ++ [row])
  | _ => (.badRequest "Dados inválidos", txs)

/-- Handler `DELETE /api/transactions/:id` (all variants):
`DELETE FROM transactions WHERE id = ? AND user_id = ?`, then
`{success: true}` unconditionally — the row count is never inspected. -/
def deleteTransaction (txs : List TransactionRow) (userId txId : Nat) :
    Bool × List TransactionRow :=
  (true, txs.filter (fun t => !(t.id = txId && t.user_id = userId)))

/-! ### Balance update -/

/-- Outcome of `PUT /api/user/balance`, tagged with its HTTP status via
`BalanceResult.status`. -/
inductive BalanceResult where
  | badRequest : String → BalanceResult
  | success : BalanceResult
deriving Repr, DecidableEq

/-- HTTP status of a balance-update outcome. -/
def BalanceResult.status : BalanceResult → Nat
  | .badRequest _ => 400
  | .success => 200

/-- Handler `PUT /api/user/balance` (all variants):
`UPDATE users SET initial_balance = ? WHERE id = ?` with the raw body value,
then `{success: true}`. Binding `undefined` (an absent body field) throws
and is caught as 400; any bound value, `null` included, is written as-is
into the column of every row whose id matches (zero rows is fine). -/
def updateBalance (users : List UserRow) (userId : Nat)
    (initialBalance : JsVal) : BalanceResult × List UserRow :=
  match bindParam initialBalance with
  | none => (.badRequest "Erro ao atualizar saldo", users)
  | some v =>
    (.success,
     users.map fun u => if u.id = userId then { u with initial_balance := v } else u)

/-! ### Backup rotation (multi-user variant only)

`createBackup` copies the database file to
`backup-<ISO timestamp with [:.] replaced by '-'>.db` and then deletes every
snapshot past the 10 most recent. The embedded timestamps are fixed-width
strings whose lexicographic order (the `Array.prototype.sort()` default used
by the code) coincides with chronological order, so a snapshot file is
modelled by its timestamp as a `Nat`. The backup directory is an unordered
set of filenames, modelled as a duplicate-free list; pruning keeps the set
`sorted-descending.take 10`, exactly the complement of the
`sorted.slice(10)` entries that the code unlinks (when there are at most 10
files the code unlinks nothing and the set is unchanged). -/

/-- Ordering used by the prune step: `sort().reverse()`, i.e. timestamps
descending. -/
def dateDesc (a b : Nat) : Bool := decide (b ≤ a)

/-- Model of `fs.copyFileSync` to the timestamped path: overwrites silently when a
snapshot with that exact timestamp already exists. -/
def snapshotInsert (dir : List Nat) (now : Nat) : List Nat :=
  if now ∈ dir then dir else dir ++ [now]

/-- The prune step: the snapshot set that remains after unlinking everything
past the 10 newest. -/
def prune (files : List Nat) : List Nat := (files.mergeSort dateDesc).take 10

/-- One backup cycle: copy, then prune. -/
def createBackup (dir : List Nat) (now : Nat) : List Nat :=
  prune (snapshotInsert dir now)

/-- Any number of backup cycles, at the given sequence of timestamps. -/
def runBackups (dir : List Nat) (ts : List Nat) : List Nat :=
  ts.foldl createBackup dir

/-! ### Concrete fixtures used by the witnesses -/

/-- A registered multi-user account (spec §8's example user). -/
def anaUser : UserRow :=
  { id := 1, username := some "ana", email := some "a@x.com",
    password := bcryptHash "secret1", initial_balance := .real 100,
    created_at := 0, last_login := none }

/-- The sole account of a single-user variant. -/
def soloUser : UserRow :=
  { id := 1, username := none, email := none, password := bcryptHash "secret1",
    initial_balance := .real 0, created_at := 0, last_login := none }

/-- A transaction owned by user 1. -/
def txIncome : TransactionRow :=
  { id := 1, user_id := 1, type := "income", amount := .real 50,
    comment := none, category := none, date := 10 }

/-- A later transaction owned by user 1. -/
def txExpense : TransactionRow :=
  { id := 2, user_id := 1, type := "expense", amount := .real 20,
    comment := some "mercado", category := some "casa", date := 20 }

/-- A transaction owned by a different user (id 2). -/
def txOther : TransactionRow :=
  { id := 3, user_id := 2, type := "income", amount := .real 99,
    comment := none, category := none, date := 15 }

/-- A persisted refresh token for user 1, issued at time 0. -/
def anaRefreshJwt : Jwt := jwtSign ⟨1, some "ana"⟩ "refresh-secret" (some 604800) 0

/-- The `refresh_tokens` row holding `anaRefreshJwt`. -/
def anaRefreshRow : RefreshRow :=
  { id := 1, user_id := 1, token := anaRefreshJwt, expires_at := 604800,
    created_at := 0 }

/-! ## Theorems -/

/-! ### C1 — access-token verification middleware -/

/-- C1: For every request to a bearer-protected endpoint: a missing
token, a token signed with a different secret than the server's access
secret, and a token past its embedded expiry each make the request fail
with HTTP 401 without the protected handler running; when the token
verifies, the handler runs with the decoded claims (hence the decoded
`userId`) attached. -/
theorem auth_middleware_spec {σ ρ : Type} (secret : String) (now : Nat)
    (header : Option Jwt) (handler : JwtClaims → σ → ρ × σ) (st : σ) :
    (header = none → withAuth secret now header handler st = .error 401)
    ∧ (∀ t, header = some t → t.secret ≠ secret →
        withAuth secret now header handler st = .error 401)
    ∧ (∀ t e, header = some t → t.exp = some e → e ≤ now →
        withAuth secret now header handler st = .error 401)
    ∧ (∀ c, authDecode header secret now = some c →
        withAuth secret now header handler st = .ok (handler c st)) := by
  refine ⟨?_, ?_, ?_, ?_⟩
  · rintro rfl
    rfl
  · rintro t rfl hne
    simp [withAuth, authDecode, jwtVerify, hne]
  · rintro t e rfl he hle
    by_cases hs : t.secret = secret
    · simp [withAuth, authDecode, jwtVerify, hs, he, Nat.not_lt.mpr hle]
    · simp [withAuth, authDecode, jwtVerify, hs]
  · intro c hc
    simp [withAuth, hc]

/-- Concrete instance of `auth_middleware_spec`: at time 5, a token that
expired at time 3 is answered 401, and a token valid until time 10 reaches
the handler with `userId = 7` attached. -/
theorem auth_middleware_spec_witness :
    (withAuth "access-secret" 5
        (some (jwtSign ⟨7, none⟩ "access-secret" (some 3) 0))
        (fun c (st : Nat) => (c.userId, st)) 0 = .error 401)
    ∧ (withAuth "access-secret" 5
        (some (jwtSign ⟨7, none⟩ "access-secret" (some 10) 0))
        (fun c (st : Nat) => (c.userId, st)) 0 = .ok (7, 0)) :=
  ⟨(auth_middleware_spec "access-secret" 5
      (some (jwtSign ⟨7, none⟩ "access-secret" (some 3) 0))
      (fun c st => (c.userId, st)) 0).2.2.1
      (jwtSign ⟨7, none⟩ "access-secret" (some 3) 0) 3 rfl (by decide) (by decide),
   (auth_middleware_spec "access-secret" 5
      (some (jwtSign ⟨7, none⟩ "access-secret" (some 10) 0))
      (fun c (st : Nat) => (c.userId, st)) 0).2.2.2 ⟨7, none⟩ (by decide)⟩

/-! ### C2 — listing transactions -/

/-- C2: `GET /api/transactions` returns exactly the requesting user's
transactions (a row is in the answer iff it is in the table and owned by
the user), ordered by timestamp descending; when the user owns none the
answer is the empty sequence, and a transaction owned by one user never
appears in a different user's list. -/
theorem listTransactions_spec (txs : List TransactionRow) (userId : Nat) :
    (∀ t, t ∈ listTransactions txs userId ↔ t ∈ txs ∧ t.user_id = userId)
    ∧ (listTransactions txs userId).Pairwise (fun a b => b.date ≤ a.date)
    ∧ ((∀ t ∈ txs, t.user_id ≠ userId) → listTransactions txs userId = [])
    ∧ (∀ other t, other ≠ userId → t.user_id = userId →
        t ∉ listTransactions txs other) := by
  have hmem : ∀ t, t ∈ listTransactions txs userId ↔ t ∈ txs ∧ t.user_id = userId := by
    intro t
    simp [listTransactions, List.mem_mergeSort, List.mem_filter]
  refine ⟨hmem, ?_, ?_, ?_⟩
  · have h : (List.mergeSort (txs.filter fun t => t.user_id = userId)
        (fun a b => decide (b.date ≤ a.date))).Pairwise
        (fun a b : TransactionRow => decide (b.date ≤ a.date) = true) :=
      List.sorted_mergeSort
        (fun a b c h1 h2 => by
          simp only [decide_eq_true_eq] at *
          omega)
        (fun a b => by
          simp only [Bool.or_eq_true, decide_eq_true_eq]
          omega)
        (txs.filter fun t => t.user_id = userId)
    exact h.imp (fun hab => by simpa using hab)
  · intro h
    have : txs.filter (fun t => t.user_id = userId) = [] := by
      simp only [List.filter_eq_nil_iff, decide_eq_true_eq]
      exact h
    simp [listTransactions, this]
  · intro other t hne ht hmem'
    have h2 : t ∈ txs ∧ t.user_id = other := by
      simpa [listTransactions, List.mem_filter] using hmem'
    exact hne ((h2.2 ▸ ht).symm).symm

/-- Concrete instance of `listTransactions_spec`: a user owning no
transaction gets the empty list, not an error. -/
theorem listTransactions_spec_witness : listTransactions [txOther] 1 = [] :=
  (listTransactions_spec [txOther] 1).2.2.1 (by decide)

/-! ### C3 — deleting a transaction -/

/-- C3: `DELETE /api/transactions/:id` answers `{success: true}`
unconditionally; every row that is not the requesting user's row with the
requested id survives, nothing new appears, and when no row matches (wrong
id, or a transaction owned by someone else) the table is returned exactly
unchanged. -/
theorem deleteTransaction_spec (txs : List TransactionRow) (userId txId : Nat) :
    (deleteTransaction txs userId txId).1 = true
    ∧ (∀ t ∈ txs, ¬(t.id = txId ∧ t.user_id = userId) →
        t ∈ (deleteTransaction txs userId txId).2)
    ∧ (∀ t ∈ (deleteTransaction txs userId txId).2, t ∈ txs)
    ∧ ((∀ t ∈ txs, ¬(t.id = txId ∧ t.user_id = userId)) →
        (deleteTransaction txs userId txId).2 = txs) := by
  refine ⟨rfl, ?_, ?_, ?_⟩
  · intro t ht hne
    refine List.mem_filter.mpr ⟨ht, ?_⟩
    simpa using not_and_or.mp hne
  · intro t ht
    exact (List.mem_filter.mp ht).1
  · intro h
    refine List.filter_eq_self.mpr ?_
    intro t ht
    simpa using not_and_or.mp (h t ht)

/-- Concrete instance of `deleteTransaction_spec`: user 1 asking to delete
transaction 3, which belongs to user 2, gets success while the table —
including user 2's transaction — is left exactly intact. -/
theorem deleteTransaction_spec_witness :
    (deleteTransaction [txIncome, txOther] 1 3).2 = [txIncome, txOther] :=
  (deleteTransaction_spec [txIncome, txOther] 1 3).2.2.2 (by decide)

/-! ### C4 — minimum password length on registration -/

/-- C4, counterexample to the claim as stated: The single-user sql.js
variant (`src/server.js`, one of the claim's cited sources) performs no
password-length validation: registering with the 3-character password
`"abc"` — shorter than both configured minima — answers 201 and creates a
user row. -/
theorem register_short_password_counterexample :
    "abc".length < 4
    ∧ (register_sjs [] (some "abc") JsVal.undef "secret-key-123" 0 1).1.status = 201
    ∧ (register_sjs [] (some "abc") JsVal.undef "secret-key-123" 0 1).2 ≠ [] := by
  refine ⟨by decide, rfl, by decide⟩

/-- C4, amended: In the variants that configure a minimum — 6 in the
multi-user variant, 4 in the better-sqlite3 single-user variant — a
registration whose password is shorter than the minimum fails with HTTP 400
and leaves the `users` table unchanged, whatever the other fields are. -/
theorem register_minLength_spec (users : List UserRow) (rts : List RefreshRow)
    (username email : Option String) (initialBalance : JsVal)
    (accessSecret refreshSecret secret : String) (now nextUserId nextRtId : Nat) :
    (∀ pw : String, pw.length < 6 →
      (register_mu users rts username email (some pw) initialBalance
          accessSecret refreshSecret now nextUserId nextRtId).1.status = 400
      ∧ (register_mu users rts username email (some pw) initialBalance
          accessSecret refreshSecret now nextUserId nextRtId).2.1 = users)
    ∧ (∀ pw : String, pw.length < 4 →
      (register_bsq users (some pw) initialBalance secret now nextUserId).1.status = 400
      ∧ (register_bsq users (some pw) initialBalance secret now nextUserId).2 = users) := by
  constructor
  · intro pw hpw
    match username, email with
    | none, _ => exact ⟨rfl, rfl⟩
    | some un, none => exact ⟨rfl, rfl⟩
    | some un, some em =>
      simp only [register_mu]
      by_cases h0 : un = "" || em = "" || pw = ""
      · simp [h0, RegisterResult.status]
      · simp [h0, if_pos hpw, RegisterResult.status]
  · intro pw hpw
    simp only [register_bsq]
    by_cases h0 : pw = ""
    · simp [h0, RegisterResult.status]
    · simp [h0, if_pos hpw, RegisterResult.status]

/-- Concrete instance of `register_minLength_spec`: registering `ana` with
the 5-character password `"abc12"` in the multi-user variant is answered
400 and creates no user row. -/
theorem register_minLength_spec_witness :
    (register_mu [] [] (some "ana") (some "a@x.com") (some "abc12") JsVal.undef
        "access-secret" "refresh-secret" 0 1 1).1.status = 400
    ∧ (register_mu [] [] (some "ana") (some "a@x.com") (some "abc12") JsVal.undef
        "access-secret" "refresh-secret" 0 1 1).2.1 = [] :=
  (register_minLength_spec [] [] (some "ana") (some "a@x.com") JsVal.undef
      "access-secret" "refresh-secret" "unused" 0 1 1).1 "abc12" (by decide)

/-! ### C5 — token refresh -/

/-- C5: `POST /api/refresh` looks the refresh token up by exact match,
checks the stored `expires_at` column against the clock, verifies the
token's signature, and only when all three pass answers a fresh access
token signed with the access secret and a one-hour embedded expiry; the
`refresh_tokens` table is never modified, and each of not-found,
stored-expired and bad-signature is answered 401. -/
theorem refresh_spec (rts : List RefreshRow) (rt? : Option Jwt)
    (accessSecret refreshSecret : String) (now : Nat) :
    ((refresh rts rt? accessSecret refreshSecret now).2 = rts)
    ∧ (∀ rt, rt? = some rt → rts.find? (fun r => r.token = rt) = none →
        (refresh rts rt? accessSecret refreshSecret now).1
          = .unauthorized "Refresh token inválido")
    ∧ (∀ rt row, rt? = some rt → rts.find? (fun r => r.token = rt) = some row →
        row.expires_at < now →
        (refresh rts rt? accessSecret refreshSecret now).1
          = .unauthorized "Refresh token expirado")
    ∧ (∀ rt row, rt? = some rt → rts.find? (fun r => r.token = rt) = some row →
        ¬row.expires_at < now → jwtVerify rt refreshSecret now = none →
        (refresh rts rt? accessSecret refreshSecret now).1
          = .unauthorized "Refresh token inválido")
    ∧ (∀ rt row c, rt? = some rt → rts.find? (fun r => r.token = rt) = some row →
        ¬row.expires_at < now → jwtVerify rt refreshSecret now = some c →
        (refresh rts rt? accessSecret refreshSecret now).1
            = .ok (jwtSign ⟨c.userId, c.username⟩ accessSecret (some 3600) now)
          ∧ (jwtSign ⟨c.userId, c.username⟩ accessSecret (some 3600) now).exp
            = some (now + 3600)) := by
  refine ⟨?_, ?_, ?_, ?_, ?_⟩
  · match rt? with
    | none => rfl
    | some rt =>
      simp only [refresh]
      cases hfind : rts.find? (fun r => r.token = rt) with
      | none => rfl
      | some row =>
        by_cases he : row.expires_at < now
        · simp [he]
        · simp only [if_neg he]
          cases hv : jwtVerify rt refreshSecret now with
          | none => rfl
          | some c => rfl
  · rintro rt rfl hfind
    simp [refresh, hfind]
  · rintro rt row rfl hfind he
    simp [refresh, hfind, he]
  · rintro rt row rfl hfind he hv
    simp [refresh, hfind, he, hv]
  · rintro rt row c rfl hfind he hv
    refine ⟨?_, rfl⟩
    simp [refresh, hfind, he, hv]

/-- Concrete instance of `refresh_spec`: user 1's stored refresh token,
presented at time 100 (well before its expiry at 604800), is answered with
a fresh access token valid until time 3700. -/
theorem refresh_spec_witness :
    (refresh [anaRefreshRow] (some anaRefreshJwt) "access-secret"
        "refresh-secret" 100).1
      = .ok (jwtSign ⟨1, some "ana"⟩ "access-secret" (some 3600) 100)
    ∧ (jwtSign ⟨1, some "ana"⟩ "access-secret" (some 3600) 100).exp = some 3700 :=
  (refresh_spec [anaRefreshRow] (some anaRefreshJwt) "access-secret"
      "refresh-secret" 100).2.2.2.2 anaRefreshJwt anaRefreshRow ⟨1, some "ana"⟩
    rfl (by decide) (by decide) (by decide)

/-! ### C6 — login without a matching account -/

/-- C6, counterexample to the claim as stated: In the multi-user
variant (`src/unnamed/part_000`, one of the claim's cited sources), a login
naming an account that does not exist is answered 401 — the same
"Usuário ou senha incorretos" as a password mismatch — not 404. -/
theorem login_missing_account_counterexample :
    (login_mu [] [] (some "ana") (some "secret1") "access-secret"
        "refresh-secret" 0 1).1.status = 401
    ∧ (login_mu [] [] (some "ana") (some "secret1") "access-secret"
        "refresh-secret" 0 1).1.status ≠ 404 := by
  refine ⟨rfl, by decide⟩

/-- C6, amended: In the single-user variants a login with no existing
account is answered `NotFoundError` (HTTP 404) and a password mismatch 401;
in the multi-user variant a missing account and a password mismatch are
both answered 401 with the identical message. -/
theorem login_error_mapping_spec (users : List UserRow) (rts : List RefreshRow)
    (password : Option String) (secret accessSecret refreshSecret : String)
    (now nextRtId : Nat) :
    ((login_su [] password secret now).1 = .notFound "Nenhuma conta encontrada")
    ∧ (∀ u rest pw, users = u :: rest → password = some pw →
        ¬bcryptCompare pw u.password →
        (login_su users password secret now).1 = .unauthorized "Senha incorreta")
    ∧ (∀ un pw, un ≠ "" → pw ≠ "" →
        users.find? (fun u => u.username = some un || u.email = some un) = none →
        (login_mu users rts (some un) (some pw) accessSecret refreshSecret
            now nextRtId).1 = .unauthorized "Usuário ou senha incorretos")
    ∧ (∀ un pw u, un ≠ "" → pw ≠ "" →
        users.find? (fun u => u.username = some un || u.email = some un) = some u →
        ¬bcryptCompare pw u.password →
        (login_mu users rts (some un) (some pw) accessSecret refreshSecret
            now nextRtId).1 = .unauthorized "Usuário ou senha incorretos") := by
  refine ⟨rfl, ?_, ?_, ?_⟩
  · rintro u rest pw rfl rfl hcmp
    simp [login_su, hcmp]
  · intro un pw hun hpw hfind
    simp [login_mu, hun, hpw, hfind]
  · intro un pw u hun hpw hfind hcmp
    simp [login_mu, hun, hpw, hfind, hcmp]

/-- Concrete instance of `login_error_mapping_spec`: the empty single-user
table answers 404, and a wrong password for `ana` in the multi-user variant
answers 401. -/
theorem login_error_mapping_spec_witness :
    (login_su [] (some "whatever") "secret-key-123" 0).1
      = .notFound "Nenhuma conta encontrada"
    ∧ (login_mu [anaUser] [] (some "ana") (some "wrong-pass") "access-secret"
        "refresh-secret" 0 1).1 = .unauthorized "Usuário ou senha incorretos" :=
  ⟨(login_error_mapping_spec [] [] (some "whatever") "secret-key-123"
      "access-secret" "refresh-secret" 0 1).1,
   (login_error_mapping_spec [anaUser] [] (some "wrong-pass") "secret-key-123"
      "access-secret" "refresh-secret" 0 1).2.2.2 "ana" "wrong-pass" anaUser
      (by decide) (by decide) (by decide) (by decide)⟩

/-! ### C7 — creating a transaction -/

/-- C7, counterexample to the claim as stated: The amount `0` is
present (it is not an absent field) and the kind `"income"` is one of the
two enumerated values, yet the validating handlers answer 400 and persist
nothing: the guard `!amount` rejects every falsy amount, not only absent
ones. -/
theorem createTransaction_zero_amount_counterexample :
    JsVal.num 0 ≠ JsVal.undef
    ∧ (createTransaction [] 1 (JsVal.str "income") (JsVal.num 0) none none 1 0).1.status
        = 400
    ∧ (createTransaction [] 1 (JsVal.str "income") (JsVal.num 0) none none 1 0).2
        = [] := by
  refine ⟨by decide, rfl, rfl⟩

/-- C7, amended: In the handlers that validate (multi-user and
better-sqlite3 variants): a request whose kind is `"income"` or `"expense"`
and whose amount is truthy (present and neither `0`, `null` nor `""`) is
persisted, answered 201 with the server-assigned id and timestamp; a
request whose kind is outside the two enumerated values, or whose amount is
falsy — in particular absent — is answered with a validation error and
persists nothing. -/
theorem createTransaction_spec (txs : List TransactionRow) (userId : Nat)
    (type amount : JsVal) (comment category : Option String) (nextId now : Nat) :
    (∀ ty, type = .str ty → (ty = "income" ∨ ty = "expense") →
      jsTruthy amount = true →
      createTransaction txs userId type amount comment category nextId now
        = (.created nextId (JsVal.str ty) amount comment category now,
           txs ++ [{ id := nextId, user_id := userId, type := ty,
                     amount := (bindParam amount).getD .null,
                     comment := comment, category := category, date := now }]))
    ∧ (¬(type = .str "income" ∨ type = .str "expense") →
        createTransaction txs userId type amount comment category nextId now
          = (.badRequest "Dados inválidos", txs))
    ∧ (jsTruthy amount = false →
        createTransaction txs userId type amount comment category nextId now
          = (.badRequest "Dados inválidos", txs)) := by
  refine ⟨?_, ?_, ?_⟩
  · rintro ty rfl hty hamt
    rcases hty with rfl | rfl <;> simp [createTransaction, hamt]
  · intro hty
    match type with
    | .undef => rfl
    | .null => rfl
    | .num n => rfl
    | .str ty =>
      have h1 : ty ≠ "income" := fun h => hty (Or.inl (by rw [h]))
      have h2 : ty ≠ "expense" := fun h => hty (Or.inr (by rw [h]))
      simp [createTransaction, h1, h2]
  · intro hamt
    match type with
    | .undef => rfl
    | .null => rfl
    | .num n => rfl
    | .str ty => simp [createTransaction, hamt]

/-- Concrete instance of `createTransaction_spec`: spec §8's example —
`{type: "income", amount: 50}` — is persisted for user 1 and answered 201
with id 1 and the insertion timestamp. -/
theorem createTransaction_spec_witness :
    createTransaction [] 1 (JsVal.str "income") (JsVal.num 50) none none 1 30
      = (.created 1 (JsVal.str "income") (JsVal.num 50) none none 30,
         [{ id := 1, user_id := 1, type := "income", amount := .real 50,
            comment := none, category := none, date := 30 }]) :=
  (createTransaction_spec [] 1 (JsVal.str "income") (JsVal.num 50) none none
      1 30).1 "income" rfl (Or.inl rfl) (by decide)

/-! ### C9 — access-token lifetime -/

/-- C9, counterexample to the claim as stated: The single-user sql.js
variant's register signs its access token with no `expiresIn`: the token
carries no embedded expiry and the middleware still accepts it a billion
seconds later, so it is not short-lived. -/
theorem token_no_expiry_counterexample :
    (register_sjs [] (some "secret1") JsVal.undef "secret-key-123" 0 1).1
      = .created (jwtSign ⟨1, none⟩ "secret-key-123" none 0) none 1 none
    ∧ (jwtSign ⟨1, none⟩ "secret-key-123" none 0).exp = none
    ∧ withAuth "secret-key-123" 1000000000
        (some (jwtSign ⟨1, none⟩ "secret-key-123" none 0))
        (fun c (st : Nat) => (c.userId, st)) 0 = .ok (1, 0) := by
  refine ⟨rfl, rfl, rfl⟩

/-- C9, amended: Only the multi-user variant's access tokens are
short-lived: a token issued by its register or login embeds the expiry
`now + 3600` (one hour) and is rejected by the middleware at any time from
that expiry on; the tokens issued by both single-user variants' register
(sql.js `register_sjs` and better-sqlite3 `register_bsq`) and by their
shared login (`login_su`) carry no expiry claim and the middleware accepts
them at every later time. -/
theorem access_token_lifetime_spec (users : List UserRow)
    (rts : List RefreshRow) (initialBalance : JsVal)
    (accessSecret refreshSecret : String) (now nextUserId nextRtId : Nat) :
    (∀ un em pw tok rtok uid uname,
      (register_mu users rts (some un) (some em) (some pw) initialBalance
          accessSecret refreshSecret now nextUserId nextRtId).1
        = .created tok rtok uid uname →
      tok.exp = some (now + 3600)
      ∧ ∀ later, now + 3600 ≤ later →
          ∀ (handler : JwtClaims → Nat → Nat × Nat) (st : Nat),
            withAuth accessSecret later (some tok) handler st = .error 401)
    ∧ (∀ un pw res tok rtok uid uname,
      (login_mu users rts (some un) (some pw) accessSecret refreshSecret
          now nextRtId).1 = res → res = .success tok rtok uid uname →
      tok.exp = some (now + 3600)
      ∧ ∀ later, now + 3600 ≤ later →
          ∀ (handler : JwtClaims → Nat → Nat × Nat) (st : Nat),
            withAuth accessSecret later (some tok) handler st = .error 401)
    ∧ (∀ pw secret tok rtok uid uname,
      (register_sjs users (some pw) initialBalance secret now nextUserId).1
        = .created tok rtok uid uname →
      tok.exp = none
      ∧ ∀ later (handler : JwtClaims → Nat → Nat × Nat) (st : Nat),
          withAuth secret later (some tok) handler st
            = .ok (handler tok.claims st))
    ∧ (∀ pw secret tok rtok uid uname,
      (register_bsq users (some pw) initialBalance secret now nextUserId).1
        = .created tok rtok uid uname →
      tok.exp = none
      ∧ ∀ later (handler : JwtClaims → Nat → Nat × Nat) (st : Nat),
          withAuth secret later (some tok) handler st
            = .ok (handler tok.claims st))
    ∧ (∀ pw secret tok rtok uid uname,
      (login_su users (some pw) secret now).1 = .success tok rtok uid uname →
      tok.exp = none
      ∧ ∀ later (handler : JwtClaims → Nat → Nat × Nat) (st : Nat),
          withAuth secret later (some tok) handler st
            = .ok (handler tok.claims st)) := by
  have hreject : ∀ (c : JwtClaims) (secret : String) (later : Nat),
      now + 3600 ≤ later →
      ∀ (handler : JwtClaims → Nat → Nat × Nat) (st : Nat),
        withAuth secret later (some (jwtSign c secret (some 3600) now)) handler st
          = .error 401 := by
    intro c secret later hle handler st
    simp [withAuth, authDecode, jwtVerify, jwtSign, Nat.not_lt.mpr hle]
  have haccept : ∀ (c : JwtClaims) (secret : String) (later : Nat)
      (handler : JwtClaims → Nat → Nat × Nat) (st : Nat),
      withAuth secret later (some (jwtSign c secret none now)) handler st
        = .ok (handler c st) := by
    intro c secret later handler st
    simp [withAuth, authDecode, jwtVerify, jwtSign]
  refine ⟨?_, ?_, ?_, ?_, ?_⟩
  · intro un em pw tok rtok uid uname hres
    simp only [register_mu] at hres
    by_cases h0 : un = "" || em = "" || pw = ""
    · simp [h0] at hres
    · simp only [h0, Bool.false_eq_true, if_false] at hres
      by_cases h1 : pw.length < 6
      · simp [h1] at hres
      · simp only [h1, if_false] at hres
        by_cases h2 : users.any (fun u => u.username = some un || u.email = some em)
        · simp [h2] at hres
        · simp only [h2, Bool.false_eq_true, if_false, RegisterResult.created.injEq] at hres
          obtain ⟨rfl, -, -, -⟩ := hres
          exact ⟨rfl, fun later hle => hreject _ _ later hle⟩
  · rintro un pw res tok rtok uid uname rfl hres
    simp only [login_mu] at hres
    by_cases h0 : un = "" || pw = ""
    · simp [h0] at hres
    · simp only [h0, Bool.false_eq_true, if_false] at hres
      cases hfind : users.find? (fun u => u.username = some un || u.email = some un) with
      | none => rw [hfind] at hres; simp at hres
      | some u =>
        rw [hfind] at hres
        by_cases hcmp : bcryptCompare pw u.password
        · simp only [hcmp, if_true, LoginResult.success.injEq] at hres
          obtain ⟨rfl, -, -, -⟩ := hres
          exact ⟨rfl, fun later hle => hreject _ _ later hle⟩
        · simp [hcmp] at hres
  · intro pw secret tok rtok uid uname hres
    simp only [register_sjs, RegisterResult.created.injEq] at hres
    obtain ⟨rfl, -, -, -⟩ := hres
    exact ⟨rfl, fun later handler st => haccept _ _ later handler st⟩
  · intro pw secret tok rtok uid uname hres
    simp only [register_bsq] at hres
    by_cases h0 : pw = ""
    · simp [h0] at hres
    · by_cases h1 : pw.length < 4
      · simp [h0, h1] at hres
      · simp only [h0, h1, Bool.false_eq_true, if_false, decide_False,
          Bool.false_or, RegisterResult.created.injEq] at hres
        obtain ⟨rfl, -, -, -⟩ := hres
        exact ⟨rfl, fun later handler st => haccept _ _ later handler st⟩
  · intro pw secret tok rtok uid uname hres
    match users with
    | [] => simp [login_su] at hres
    | u :: rest =>
      simp only [login_su, List.head?_cons] at hres
      by_cases hcmp : bcryptCompare pw u.password
      · simp only [hcmp, if_true, LoginResult.success.injEq] at hres
        obtain ⟨rfl, -, -, -⟩ := hres
        exact ⟨rfl, fun later handler st => haccept _ _ later handler st⟩
      · simp [hcmp] at hres

/-- Concrete instance of `access_token_lifetime_spec`: the token issued by
a successful multi-user registration at time 0 is refused by the middleware
at time 4000 (past its one-hour expiry). -/
theorem access_token_lifetime_spec_witness :
    withAuth "access-secret" 4000
        (some (jwtSign ⟨1, some "ana"⟩ "access-secret" (some 3600) 0))
        (fun c (st : Nat) => (c.userId, st)) 0 = .error 401 :=
  ((access_token_lifetime_spec [] [] (JsVal.num 100) "access-secret"
      "refresh-secret" 0 1 1).1 "ana" "a@x.com" "secret1"
      (jwtSign ⟨1, some "ana"⟩ "access-secret" (some 3600) 0)
      (some (jwtSign ⟨1, some "ana"⟩ "refresh-secret" (some 604800) 0))
      1 (some "ana") (by decide)).2 4000 (by decide)
      (fun c (st : Nat) => (c.userId, st)) 0

/-! ### C10 — balance update -/

/-- C10, counterexample to the claim as stated: A balance update with
an absent `initialBalance` does not answer `success: true`: binding
`undefined` throws in both database layers and the handler's catch answers
HTTP 400, leaving the table unchanged. -/
theorem updateBalance_absent_counterexample :
    (updateBalance [soloUser] 1 JsVal.undef).1.status = 400
    ∧ (updateBalance [soloUser] 1 JsVal.undef).1 ≠ .success
    ∧ (updateBalance [soloUser] 1 JsVal.undef).2 = [soloUser] := by
  refine ⟨rfl, by decide, rfl⟩

/-- C10, amended: For every authenticated balance-update request whose
`initialBalance` is supplied (any value other than an absent field, `null`
included, which is written into the column as-is), the operation answers
`success: true` regardless of whether a user row with the token's `userId`
exists; when no row matches, the table is unchanged. An absent
`initialBalance` instead fails the parameter bind and is answered 400, also
leaving the table unchanged. -/
theorem updateBalance_spec (users : List UserRow) (userId : Nat) (v : JsVal) :
    (v ≠ .undef →
      (updateBalance users userId v).1 = .success
      ∧ (updateBalance users userId v).2
          = users.map fun u =>
              if u.id = userId then
                { u with initial_balance := (bindParam v).getD .null }
              else u)
    ∧ ((∀ u ∈ users, u.id ≠ userId) → (updateBalance users userId v).2 = users)
    ∧ (v = .undef → (updateBalance users userId v).1.status = 400
        ∧ (updateBalance users userId v).2 = users) := by
  refine ⟨?_, ?_, ?_⟩
  · intro hv
    match v with
    | .undef => exact absurd rfl hv
    | .null => exact ⟨rfl, rfl⟩
    | .num n => exact ⟨rfl, rfl⟩
    | .str s => exact ⟨rfl, rfl⟩
  · intro hmiss
    match v with
    | .undef => rfl
    | .null | .num _ | .str _ =>
      simp only [updateBalance, bindParam]
      induction users with
      | nil => rfl
      | cons u rest ih =>
        have hu : u.id ≠ userId := hmiss u (List.mem_cons_self u rest)
        simp only [List.map_cons, if_neg hu]
        have := ih fun w hw => hmiss w (List.mem_cons_of_mem u hw)
        simpa using this
  · rintro rfl
    exact ⟨rfl, rfl⟩

/-- Concrete instance of `updateBalance_spec`: writing `null` succeeds and
stores NULL in the matching row as-is, and an update whose `userId` matches
no row still succeeds while changing nothing. -/
theorem updateBalance_spec_witness :
    ((updateBalance [soloUser] 1 JsVal.null).1 = .success
      ∧ (updateBalance [soloUser] 1 JsVal.null).2
          = [{ soloUser with initial_balance := .null }])
    ∧ (updateBalance [soloUser] 99 (JsVal.num 7)).2 = [soloUser] :=
  ⟨⟨((updateBalance_spec [soloUser] 1 JsVal.null).1 (by decide)).1,
    by
      rw [((updateBalance_spec [soloUser] 1 JsVal.null).1 (by decide)).2]
      decide⟩,
   (updateBalance_spec [soloUser] 99 (JsVal.num 7)).2.1 (by decide)⟩

/-! ### C8 — backup retention -/

/-- Transitivity of the descending prune comparator. -/
theorem dateDesc_trans (a b c : Nat) :
    dateDesc a b → dateDesc b c → dateDesc a c := by
  simp only [dateDesc, decide_eq_true_eq]
  omega

/-- Totality of the descending prune comparator. -/
theorem dateDesc_total (a b : Nat) : dateDesc a b || dateDesc b a := by
  simp only [dateDesc, Bool.or_eq_true, decide_eq_true_eq]
  omega

/-- The prune sort really orders timestamps descending. -/
theorem sortDesc_pairwise (l : List Nat) :
    (l.mergeSort dateDesc).Pairwise fun a b : Nat => b ≤ a :=
  (List.sorted_mergeSort dateDesc_trans dateDesc_total l).imp
    fun h => by simpa [dateDesc] using h

/-- Sorting descending after appending a timestamp at least as new as every
element puts the new timestamp first. -/
theorem sortDesc_append_max (l : List Nat) (t : Nat) (h : ∀ x ∈ l, x ≤ t) :
    (l ++ [t]).mergeSort dateDesc = t :: l.mergeSort dateDesc := by
  have hperm :
      ((l ++ [t]).mergeSort dateDesc).Perm (t :: l.mergeSort dateDesc) :=
    (List.mergeSort_perm _ _).trans
      ((List.perm_append_singleton t l).trans
        ((List.mergeSort_perm l dateDesc).symm.cons t))
  have hs1 : List.Sorted (fun a b : Nat => a ≥ b) ((l ++ [t]).mergeSort dateDesc) :=
    (sortDesc_pairwise _).imp fun hab => ge_iff_le.mpr hab
  have hs2 : List.Sorted (fun a b : Nat => a ≥ b) (t :: l.mergeSort dateDesc) := by
    refine List.Pairwise.cons ?_
      ((sortDesc_pairwise l).imp fun hab => ge_iff_le.mpr hab)
    intro x hx
    exact ge_iff_le.mpr (h x (List.mem_mergeSort.mp hx))
  exact List.eq_of_perm_of_sorted hperm hs1 hs2

/-- One backup cycle at a timestamp newer than everything on disk, starting
from a sorted-descending directory: the new snapshot takes the lead and at
most nine previous ones survive. -/
theorem createBackup_fresh (s : List Nat) (t : Nat)
    (hs : s.Pairwise fun a b => dateDesc a b) (hmax : ∀ x ∈ s, x < t) :
    createBackup s t = t :: s.take 9 := by
  have hnotmem : t ∉ s := fun hmem => absurd (hmax t hmem) (Nat.lt_irrefl t)
  rw [createBackup, snapshotInsert, if_neg hnotmem, prune,
    sortDesc_append_max s t fun x hx => Nat.le_of_lt (hmax x hx),
    List.mergeSort_of_sorted hs]
  rfl

/-- After at least one cycle whose timestamps strictly increase and are
newer than everything initially on disk, the directory is exactly the 10
most recent of all snapshots ever taken, most recent first. -/
theorem runBackups_eq (dir ts : List Nat) :
    ts ≠ [] → ts.Pairwise (· < ·) → (∀ t ∈ ts, ∀ x ∈ dir, x < t) →
    runBackups dir ts = ((dir ++ ts).mergeSort dateDesc).take 10 := by
  induction ts using List.reverseRecOn with
  | nil => intro hne _ _; exact absurd rfl hne
  | append_singleton ts' t ih =>
    intro _ hinc hfresh
    have htmem : t ∈ ts' ++ [t] := List.mem_append_right _ (by simp)
    rcases eq_or_ne ts' [] with rfl | hne'
    · have hnotmem : t ∉ dir := fun hmem =>
        absurd (hfresh t htmem t hmem) (Nat.lt_irrefl t)
      simp only [List.nil_append, runBackups, List.foldl_cons, List.foldl_nil]
      rw [createBackup, snapshotInsert, if_neg hnotmem, prune]
    · have hinc' : ts'.Pairwise (· < ·) :=
        List.Pairwise.sublist (List.sublist_append_left ts' [t]) hinc
      have hlt : ∀ x ∈ ts', x < t := fun x hx =>
        (List.pairwise_append.mp hinc).2.2 x hx t (by simp)
      have hfresh' : ∀ u ∈ ts', ∀ x ∈ dir, x < u := fun u hu =>
        hfresh u (List.mem_append_left _ hu)
      have hS := ih hne' hinc' hfresh'
      have hmaxA : ∀ x ∈ dir ++ ts', x < t := by
        intro x hx
        rcases List.mem_append.mp hx with hxd | hxt
        · exact hfresh t htmem x hxd
        · exact hlt x hxt
      have hmaxS : ∀ x ∈ (((dir ++ ts').mergeSort dateDesc).take 10), x < t :=
        fun x hx =>
          hmaxA x (List.mem_mergeSort.mp ((List.take_sublist 10 _).subset hx))
      have hSsorted :
          (((dir ++ ts').mergeSort dateDesc).take 10).Pairwise
            (fun a b => dateDesc a b) :=
        List.Pairwise.sublist (List.take_sublist 10 _)
          (List.sorted_mergeSort dateDesc_trans dateDesc_total _)
      have step : runBackups dir (ts' ++ [t])
          = createBackup (runBackups dir ts') t := by
        simp [runBackups, List.foldl_append]
      rw [step, hS, createBackup_fresh _ t hSsorted hmaxS, List.take_take,
        show dir ++ (ts' ++ [t]) = (dir ++ ts') ++ [t] from
          (List.append_assoc dir ts' [t]).symm,
        sortDesc_append_max (dir ++ ts') t fun x hx => Nat.le_of_lt (hmaxA x hx)]
      rfl

/-- C8: Over any run of backup cycles whose snapshot timestamps
strictly increase and are newer than the (duplicate-free) initial directory
contents: when more than 10 snapshots ever existed exactly 10 remain, when
at most 10 existed all remain, everything remaining is a genuine snapshot,
and every snapshot that was deleted is strictly older than every snapshot
that remains — i.e. exactly the most recent ones are retained, after any
number of cycles. -/
theorem backup_retention_spec (dir ts : List Nat) (hnd : dir.Nodup)
    (hne : ts ≠ []) (hinc : ts.Pairwise (· < ·))
    (hfresh : ∀ t ∈ ts, ∀ x ∈ dir, x < t) :
    (10 < (dir ++ ts).length → (runBackups dir ts).length = 10)
    ∧ ((dir ++ ts).length ≤ 10 →
        (runBackups dir ts).length = (dir ++ ts).length)
    ∧ (∀ x ∈ runBackups dir ts, x ∈ dir ++ ts)
    ∧ (∀ x ∈ dir ++ ts, x ∉ runBackups dir ts →
        ∀ y ∈ runBackups dir ts, x < y) := by
  have heq := runBackups_eq dir ts hne hinc hfresh
  have hlen : ((dir ++ ts).mergeSort dateDesc).length = (dir ++ ts).length :=
    List.length_mergeSort _
  refine ⟨?_, ?_, ?_, ?_⟩
  · intro h10
    rw [heq, List.length_take, hlen]
    omega
  · intro h10
    rw [heq, List.length_take, hlen]
    omega
  · intro x hx
    rw [heq] at hx
    exact List.mem_mergeSort.mp ((List.take_sublist 10 _).subset hx)
  · intro x hx hnot y hy
    rw [heq] at hnot hy
    have hnodup : (dir ++ ts).Nodup := by
      rw [List.nodup_append]
      refine ⟨hnd, hinc.imp fun h => Nat.ne_of_lt h, ?_⟩
      intro a ha hb
      exact absurd (hfresh a hb a ha) (Nat.lt_irrefl a)
    have hLnodup : ((dir ++ ts).mergeSort dateDesc).Nodup :=
      ((List.mergeSort_perm _ _).nodup_iff).mpr hnodup
    have hstrict : ((dir ++ ts).mergeSort dateDesc).Pairwise
        fun a b : Nat => b < a :=
      ((sortDesc_pairwise _).and hLnodup).imp fun hab =>
        Nat.lt_of_le_of_ne hab.1 fun hc => hab.2 hc.symm
    have hpair2 : (((dir ++ ts).mergeSort dateDesc).take 10
        ++ ((dir ++ ts).mergeSort dateDesc).drop 10).Pairwise
        (fun a b : Nat => b < a) := by
      rw [List.take_append_drop]
      exact hstrict
    have hsep := (List.pairwise_append.mp hpair2).2.2
    have hxL : x ∈ (dir ++ ts).mergeSort dateDesc := List.mem_mergeSort.mpr hx
    have hxsplit : x ∈ ((dir ++ ts).mergeSort dateDesc).take 10
        ∨ x ∈ ((dir ++ ts).mergeSort dateDesc).drop 10 := by
      rw [← List.mem_append, List.take_append_drop]
      exact hxL
    rcases hxsplit with h | h
    · exact absurd h hnot
    · exact hsep y hy x h

/-- Concrete instance of `backup_retention_spec`: one old snapshot plus 12
backup cycles leave exactly 10 snapshot files. -/
theorem backup_retention_spec_witness :
    (runBackups [0] [1, 2, 3, 4, 5, 6, 7, 8, 9, 10, 11, 12]).length = 10 :=
  (backup_retention_spec [0] [1, 2, 3, 4, 5, 6, 7, 8, 9, 10, 11, 12]
      (by decide) (by decide) (by decide) (by decide)).1 (by decide)

end ControleConta
